import Mathlib

/-!
Shallow embedding of the InsightAI visualization engine
(frontend/src/components: ChartRenderer, ChartTypeSelector, Dashboard,
DataTable), together with proofs of its specified properties.

JavaScript values appearing in data rows are modelled by `JVal`; JS numbers
are modelled by exact rationals (`ℚ`).  External JS primitives whose exact
behaviour the engine does not depend on (string→number coercion inside
`Number(...)`, number→string rendering inside `String(...)` and
`toLocaleString`) are passed in as explicit function parameters.
-/

/-- A JavaScript scalar value as it occurs in a data row.  `jundefined` models
`undefined` (in particular the result of reading an absent key). -/
inductive JVal
  | jundefined
  | jnull
  | jnum (q : ℚ)
  | jstr (s : String)
deriving DecidableEq

/-- A data record (`Record`): a JS object mapping column names to scalars.
JS objects have unique keys in insertion order; all rows built or consumed
here respect that. -/
abbrev Row := List (String × JVal)

/-- Property access `row[k]`: the stored value, or `undefined` when the key
is absent. -/
def objGet (r : Row) (k : String) : JVal :=
  match r.find? (fun p => p.1 == k) with
  | some p => p.2
  | none => .jundefined

/-- Property assignment `row[k] = v`: overwrite in place when the key
exists (JS keeps the original insertion position), append otherwise. -/
def objSet (r : Row) (k : String) (v : JVal) : Row :=
  if r.any (fun p => p.1 == k) then
    r.map (fun p => if p.1 == k then (k, v) else p)
  else r ++ [(k, v)]

/-- The keys of a row, in insertion order (`Object.keys`). -/
def rowKeys (r : Row) : List String := r.map (·.1)

section JsCoercion

-- `jsStrToNum` models the string case of the JS `Number(...)` coercion
-- (`none` plays the role of `NaN`).  It is an external primitive of the JS
-- runtime, so it is a parameter of every definition that uses it.
variable (jsStrToNum : String → Option ℚ)

/-- JS `Number(v)`; `none` models `NaN`.  `Number(null) = 0`,
`Number(undefined) = NaN`. -/
def jsToNum : JVal → Option ℚ
  | .jundefined => none
  | .jnull => some 0
  | .jnum q => some q
  | .jstr s => jsStrToNum s

/-- The idiom `Number(v) || 0`: `NaN` (and `0` itself) collapse to `0`. -/
def numOr0 (v : JVal) : ℚ := (jsToNum jsStrToNum v).getD 0

/-- The idiom `Number(row[k]) || 0`: an absent key reads as `undefined`,
hence `NaN`, hence `0`. -/
def valueOr0 (r : Row) (k : String) : ℚ := numOr0 jsStrToNum (objGet r k)

end JsCoercion

section JsStringOf

-- `jsNumToStr` models the number case of JS `String(...)`; an external
-- primitive of the JS runtime.
variable (jsNumToStr : ℚ → String)

/-- JS `String(v)` on row scalars. -/
def jsStringOf : JVal → String
  | .jundefined => "undefined"
  | .jnull => "null"
  | .jnum q => jsNumToStr q
  | .jstr s => s

end JsStringOf

/-- The chart families of the registry (the `ChartType` union in
ChartTypeSelector.tsx, minus the out-of-band `error` tag of the config). -/
inductive ChartType
  | bar | line | pie | area | scatter | radar | composed
  | stacked_bar | stacked_column | clustered_bar | clustered_column
  | stacked_100 | waterfall | funnel | table
deriving DecidableEq

/-- The `type` field of a `VisualizationConfig`: a chart family or the
upstream `error` tag. -/
inductive ConfigType
  | chart (t : ChartType)
  | error
deriving DecidableEq

/-- The `yKey` field: a single column name, a sequence of them, or absent. -/
inductive YKeySpec
  | single (s : String)
  | multi (l : List String)
  | unset
deriving DecidableEq

/-- String truthiness used by `s || "value"`: the empty string is falsy. -/
def strOr (s : String) (dflt : String) : String :=
  if s = "" then dflt else s

/-- ChartRenderer's `getYKey()`: the primary value key.  For an array,
`yKey[0] || 'value'` (an empty array reads `undefined`); for a scalar,
`yKey || 'value'`. -/
def getYKey : YKeySpec → String
  | .multi l => match l.head? with
      | some s => strOr s "value"
      | none => "value"
  | .single s => strOr s "value"
  | .unset => "value"

/-- The multi-metric key list
`Array.isArray(config.yKey) ? config.yKey : [config.yKey || 'value']`. -/
def getYKeys : YKeySpec → List String
  | .multi l => l
  | .single s => [strOr s "value"]
  | .unset => ["value"]

/-- The idiom `config.xKey || dflt` (absent and empty string are falsy). -/
def xKeyOr (x : Option String) (dflt : String) : String :=
  match x with
  | some s => strOr s dflt
  | none => dflt

/-- The fixed 8-colour palette `COLORS` of ChartRenderer. -/
def COLORS : List String :=
  ["#667eea", "#764ba2", "#10b981", "#f59e0b",
   "#ef4444", "#3b82f6", "#8b5cf6", "#ec4899"]

/-- `COLORS[i % COLORS.length]` (the index is always in range, so the
default is never reached). -/
def paletteColor (i : Nat) : String := COLORS.getD (i % COLORS.length) ""

/-! ### stacked_100 transform (ChartRenderer, `case 'stacked_100'`) -/

/-- One row of `percentData`: start from the object literal
`{ [xKey||'name']: row[xKey||'name'] }`, then for each metric key in order
assign `total > 0 ? (Number(row[key])||0)/total*100 : 0`, where `total` is
the left-fold (`reduce`) of `Number(row[key])||0` over the metric keys. -/
def stacked100Row (jsStrToNum : String → Option ℚ)
    (xKey : Option String) (yKeys : List String) (row : Row) : Row :=
  let total := yKeys.foldl (fun sum k => sum + valueOr0 jsStrToNum row k) 0
  let xk := xKeyOr xKey "name"
  let newRow : Row := [(xk, objGet row xk)]
  yKeys.foldl
    (fun r k =>
      objSet r k (.jnum (if total > 0 then valueOr0 jsStrToNum row k / total * 100 else 0)))
    newRow

/-- `percentData`: the stacked_100 transform applied rowwise. -/
def percentData (jsStrToNum : String → Option ℚ)
    (xKey : Option String) (yKeys : List String) (rows : List Row) : List Row :=
  rows.map (stacked100Row jsStrToNum xKey yKeys)

/-! ### waterfall transform (ChartRenderer, `case 'waterfall'`) -/

/-- One element of `waterfallData`: the spread of the source row plus the
derived fields.  The source field `end` is named `stop` here (`end` is a
Lean keyword). -/
structure WRow where
  base : Row
  name : JVal
  value : ℚ
  start : ℚ
  stop : ℚ
  fill : String
deriving DecidableEq

/-- The waterfall accumulation: map each row to its derived element while
threading `runningTotal` (starting from `acc`), then append the synthetic
`Total` element `{name:'Total', value:runningTotal, start:0,
end:runningTotal, fill:'#667eea'}`. -/
def waterfallFrom (jsStrToNum : String → Option ℚ) (xk yk : String) :
    ℚ → List Row → List WRow
  | acc, [] => [⟨[], .jstr "Total", acc, 0, acc, "#667eea"⟩]
  | acc, r :: rs =>
      let v := valueOr0 jsStrToNum r yk
      ⟨r, objGet r xk, v, acc, acc + v,
        if v ≥ 0 then "#10b981" else "#ef4444"⟩ :: waterfallFrom jsStrToNum xk yk (acc + v) rs

/-- `waterfallData`: running total initialised to 0. -/
def waterfallData (jsStrToNum : String → Option ℚ)
    (xKey : Option String) (ykSpec : YKeySpec) (rows : List Row) : List WRow :=
  waterfallFrom jsStrToNum (xKeyOr xKey "name") (getYKey ykSpec) 0 rows

/-! ### funnel transform (ChartRenderer, `case 'funnel'`) -/

/-- One element of `funnelData`. -/
structure FRow where
  name : String
  value : ℚ
  fill : String
deriving DecidableEq

/-- A stable sort, modelling `Array.prototype.sort` with a consistent
comparator (ES2019 requires sort to be stable, which determines the result
uniquely; insertion sort realises it).  `le x y` models
`comparator(x,y) <= 0`. -/
def jsInsert (le : α → α → Bool) (x : α) : List α → List α
  | [] => [x]
  | y :: ys => if le x y then x :: y :: ys else y :: jsInsert le x ys

/-- See `jsInsert`. -/
def jsStableSort (le : α → α → Bool) : List α → List α
  | [] => []
  | x :: xs => jsInsert le x (jsStableSort le xs)

/-- Comparator `(a,b) => b.value - a.value` (sort descending by value):
`a` precedes `b` iff the comparator is `≤ 0`, i.e. `b.value ≤ a.value`. -/
def funnelLe (a b : FRow) : Bool := decide (b.value ≤ a.value)

/-- The pre-sort mapping step of `funnelData`: element `i` gets
`{name: String(row[xKey||'name']), value: Number(row[yKey])||0,
fill: COLORS[i % COLORS.length]}`. -/
def funnelMapped (jsStrToNum : String → Option ℚ) (jsNumToStr : ℚ → String)
    (xKey : Option String) (ykSpec : YKeySpec) (rows : List Row) : List FRow :=
  (rows.enum).map (fun p =>
    ⟨jsStringOf jsNumToStr (objGet p.2 (xKeyOr xKey "name")),
     valueOr0 jsStrToNum p.2 (getYKey ykSpec),
     paletteColor p.1⟩)

/-- `funnelData`: map with pre-sort colours, then stable-sort by value
descending. -/
def funnelData (jsStrToNum : String → Option ℚ) (jsNumToStr : ℚ → String)
    (xKey : Option String) (ykSpec : YKeySpec) (rows : List Row) : List FRow :=
  jsStableSort funnelLe (funnelMapped jsStrToNum jsNumToStr xKey ykSpec rows)

/-! ### ChartTypeSelector: registry and recommendation ranking -/

/-- A registry entry of `CHART_OPTIONS` (`{value, label, icon}`). -/
structure ChartOption where
  value : ChartType
  label : String
  icon : String
deriving DecidableEq

/-- The static registry `CHART_OPTIONS`, in source order. -/
def CHART_OPTIONS : List ChartOption :=
  [⟨.bar, "Bar", "📊"⟩,
   ⟨.line, "Line", "📈"⟩,
   ⟨.pie, "Pie", "🥧"⟩,
   ⟨.area, "Area", "📉"⟩,
   ⟨.scatter, "Scatter", "⭐"⟩,
   ⟨.radar, "Radar", "🕸️"⟩,
   ⟨.composed, "Combo", "📊📈"⟩,
   ⟨.stacked_column, "Stacked", "📊▲"⟩,
   ⟨.stacked_bar, "Stacked Bar", "📊◀"⟩,
   ⟨.clustered_column, "Clustered", "📊📊"⟩,
   ⟨.clustered_bar, "Clustered Bar", "▐▐"⟩,
   ⟨.stacked_100, "100% Stacked", "📊%"⟩,
   ⟨.waterfall, "Waterfall", "🌊"⟩,
   ⟨.funnel, "Funnel", "🔻"⟩,
   ⟨.table, "Table", "📋"⟩]

/-- `isRecommended`: membership of the option's value in
`recommendedTypes` (`Array.prototype.includes`). -/
def isRecommended (rec : List ChartType) (t : ChartType) : Bool :=
  decide (t ∈ rec)

/-- The 0/1 sort key `isRecommended(v) ? 0 : 1` of the comparator. -/
def recRank (rec : List ChartType) (o : ChartOption) : Nat :=
  if isRecommended rec o.value then 0 else 1

/-- Comparator `(a,b) => aRec - bRec`: `a` precedes `b` iff the difference
is `≤ 0`. -/
def recLe (rec : List ChartType) (a b : ChartOption) : Bool :=
  decide (recRank rec a ≤ recRank rec b)

/-- Ranking an arbitrary option sequence (the stable sort of the source,
applicable to any list). -/
def rankList (rec : List ChartType) (l : List ChartOption) : List ChartOption :=
  jsStableSort (recLe rec) l

/-- `sortedOptions`: the ranked registry shown by the selector. -/
def sortedOptions (rec : List ChartType) : List ChartOption :=
  rankList rec CHART_OPTIONS

/-! ### Dashboard: selection state machine -/

/-- The `data` field of a `VisualizationConfig`: a JSON-encoded string, an
array of records, or a bare record. -/
inductive DataPayload
  | dstr (s : String)
  | darr (rows : List Row)
  | dobj (r : Row)
deriving DecidableEq

/-- A structured result of `JSON.parse` as consumed by ChartRenderer: a
record array or a single record (scalar JSON results are out of scope of
the data model, which calls `data` structured). -/
inductive ParsedJson
  | jarr (rows : List Row)
  | jobj (r : Row)
deriving DecidableEq

/-- The fields of `VisualizationConfig` (api.ts) that the engine reads. -/
structure VizConfig where
  ctype : ConfigType
  title : String
  message : Option String
  xKey : Option String
  yKey : YKeySpec
  data : Option DataPayload
  recommended : Option (List ChartType)
deriving DecidableEq

/-- Dashboard's selection state: `selectedChartType` (the user pick, `none`
until one is made) and the stored result's `visualization_config` (`none`
while no result is displayed). -/
structure DashState where
  selectedChartType : Option ConfigType
  vizResult : Option VizConfig
deriving DecidableEq

/-- `handleChartTypeChange`: an explicit user pick from the selector. -/
def applyPick (s : DashState) (t : ChartType) : DashState :=
  { s with selectedChartType := some (.chart t) }

/-- `response.visualization_config?.type || 'bar'`. -/
def aiDefaultType (cfg : Option VizConfig) : ConfigType :=
  match cfg with
  | some c => c.ctype
  | none => .chart .bar

/-- `handleSubmit` completing successfully: every piece of state is
replaced (`selectedChartType` is reset and then set to the AI default of
the new config), regardless of the prior state. -/
def applyNewResult (_s : DashState) (cfg : Option VizConfig) : DashState :=
  { selectedChartType := some (aiDefaultType cfg), vizResult := cfg }

/-- `getEffectiveConfig`: the stored config with
`type := selectedChartType || config.type`. -/
def getEffectiveConfig (s : DashState) : Option VizConfig :=
  match s.vizResult with
  | none => none
  | some c => some { c with ctype := s.selectedChartType.getD c.ctype }

/-- `recommendedCharts = (config?.recommended_charts ||
[aiRecommendedType]).filter(Boolean)`: an explicit list (even empty) is
truthy and used as is; otherwise the fallback singleton, dropping the
`undefined` entry when there is no config. -/
def recommendedCharts (cfg : Option VizConfig) : List ConfigType :=
  match cfg with
  | some c =>
      match c.recommended with
      | some l => l.map .chart
      | none => [c.ctype]
  | none => []

/-! ### ChartRenderer: normalization and dispatch -/

/-- The outcome of normalizing `config.data` (lines 154-183 of
ChartRenderer): either structured rows, or the sentinel carrying the raw
string to render as opaque text when `JSON.parse` throws. -/
inductive NormResult
  | rawText (s : String)
  | rows (l : List Row)
deriving DecidableEq

/-- The normalization block: a string is parsed (`parse s = none` models a
`JSON.parse` throw); a parsed non-array is wrapped in a singleton; an array
passes through; a bare (non-array, non-string) value leaves the initial
`[]` in place, which is already an array. -/
def normalizeChartData (parse : String → Option ParsedJson) :
    DataPayload → NormResult
  | .dstr s =>
      match parse s with
      | none => .rawText s
      | some (.jarr l) => .rows l
      | some (.jobj r) => .rows [r]
  | .darr l => .rows l
  | .dobj _ => .rows []

/-- Normalization lifted to the optional field (the `none` case is
unreachable behind the truthiness guard). -/
def normalizePayload (parse : String → Option ParsedJson) :
    Option DataPayload → NormResult
  | none => .rows []
  | some p => normalizeChartData parse p

/-- JS truthiness of `config.data` (the guard `!config.data`): absent data
and the empty string are falsy; any array or object, even empty, is
truthy. -/
def dataTruthy : Option DataPayload → Bool
  | none => false
  | some (.dstr s) => s ≠ ""
  | some (.darr _) => true
  | some (.dobj _) => true

/-- The render instruction produced by ChartRenderer, abstracted to its
kind: the per-family derived datasets are the separately modelled
transforms (`percentData`, `waterfallData`, `funnelData`). -/
inductive RenderResult
  | nothing
  | errorCard (title : String) (message : Option String)
  | rawText (title : String) (raw : String)
  | noData
  | tableView (columns : List String) (rows : List Row)
  | chart (t : ChartType) (data : List Row)
deriving DecidableEq

/-- `renderTable`: the "No data available" placeholder on an empty
dataset, else a table whose columns are the first row's keys. -/
def renderTableQ (data : List Row) : RenderResult :=
  match data with
  | [] => .noData
  | r :: _ => .tableView (rowKeys r) data

/-- The `switch (config.type)` dispatch: `table` (and the `default`
fallthrough) render the table; every other family emits its chart
instruction over the normalized rows, with no emptiness check. -/
def dispatchChart (t : ChartType) (chartData : List Row) : RenderResult :=
  match t with
  | .table => renderTableQ chartData
  | t => .chart t chartData

/-- `ChartRenderer({config})`: the missing/falsy-data guard, the error
card, the string-parse fallback, then the family dispatch. -/
def chartRenderer (parse : String → Option ParsedJson) (cfg : VizConfig) :
    RenderResult :=
  if ¬ dataTruthy cfg.data then .nothing
  else if cfg.ctype = .error then .errorCard cfg.title cfg.message
  else
    match normalizePayload parse cfg.data with
    | .rawText s => .rawText cfg.title s
    | .rows chartData =>
        match cfg.ctype with
        | .chart t => dispatchChart t chartData
        | .error => .errorCard cfg.title cfg.message

/-! ### Composed (dual-axis) chart: axis tick formatters -/

/-- JS `Number.prototype.toFixed d` on exact rationals: the nearest
multiple of `10^(-d)`, ties toward the larger value, rendered with exactly
`d` fraction digits.  (The display of negative zero is not modelled; no
input considered here produces it.) -/
def fmtFixed (d : Nat) (q : ℚ) : String :=
  let n : ℤ := ⌊q * (10 : ℚ) ^ d + 1 / 2⌋
  let sign := if n < 0 then "-" else ""
  let m := n.natAbs
  let ip := m / 10 ^ d
  let fp := m % 10 ^ d
  if d = 0 then sign ++ toString ip
  else
    let fs := toString fp
    sign ++ toString ip ++ "." ++ String.mk (List.replicate (d - fs.length) '0') ++ fs

/-- The left (primary) axis `tickFormatter` of the composed chart. -/
def primaryTick (v : ℚ) : String :=
  if v ≥ 1000000 then fmtFixed 1 (v / 1000000) ++ "M"
  else if v ≥ 1000 then fmtFixed 1 (v / 1000) ++ "K"
  else fmtFixed 0 v

/-- The right (secondary) axis `tickFormatter` of the composed chart:
values within `[0,100]` as a percentage, then the `K` branch, else one
decimal (there is no `M` branch here). -/
def secondaryTick (v : ℚ) : String :=
  if v ≤ 100 ∧ v ≥ 0 then fmtFixed 1 v ++ "%"
  else if v ≥ 1000 then fmtFixed 1 (v / 1000) ++ "K"
  else fmtFixed 1 v

/-- Which axis formatter a composed-chart series uses: series 0 (the bar)
reads the left axis, every later series (the lines) reads the right
axis. -/
def composedAxisFormat (i : Nat) (v : ℚ) : String :=
  if i = 0 then primaryTick v else secondaryTick v

/-! ### DataTable (the tabular fallback component) -/

/-- The rendered table: raw column keys, displayed headers
(`col.replace(/_/g,' ')`), and the formatted body cells. -/
structure TableView where
  columns : List String
  headers : List String
  body : List (List String)
deriving DecidableEq

/-- Header display: underscores become spaces. -/
def headerOf (c : String) : String :=
  String.mk (c.toList.map (fun ch => if ch = '_' then ' ' else ch))

/-- DataTable's `formatValue`: `null`/`undefined` render as `"-"`, numbers
through `toLocaleString` (the external primitive `fmtNum`), everything
else through `String(...)`. -/
def formatValue (fmtNum : ℚ → String) : JVal → String
  | .jundefined => "-"
  | .jnull => "-"
  | .jnum q => fmtNum q
  | .jstr s => s

/-- `DataTable({data})`: `none` models the "No data available" placeholder;
otherwise the columns come from the first row's keys alone and every row
is rendered against exactly those columns. -/
def dataTable (fmtNum : ℚ → String) (data : List Row) : Option TableView :=
  match data with
  | [] => none
  | r0 :: _ =>
      some { columns := rowKeys r0,
             headers := (rowKeys r0).map headerOf,
             body := data.map (fun r => (rowKeys r0).map (fun c => formatValue fmtNum (objGet r c))) }

/-! ### Helper lemmas -/

theorem find?_map_set (r : Row) (k : String) (v : JVal)
    (h : r.any (fun p => p.1 == k) = true) :
    (r.map (fun p => if p.1 == k then (k, v) else p)).find? (fun p => p.1 == k)
      = some (k, v) := by
  induction r with
  | nil => simp at h
  | cons p r ih =>
    by_cases hp : p.1 = k
    · simp [List.find?, hp]
    · have hpk : (p.1 == k) = false := by simp [hp]
      simp only [List.map_cons, hpk, if_false, List.find?, Bool.false_eq_true]
      exact ih (by simpa [List.any_cons, hpk] using h)

theorem find?_map_set_ne (r : Row) (k k' : String) (v : JVal) (h : k ≠ k') :
    (r.map (fun p => if p.1 == k' then (k', v) else p)).find? (fun p => p.1 == k)
      = r.find? (fun p => p.1 == k) := by
  induction r with
  | nil => simp
  | cons p r ih =>
    by_cases hp : p.1 = k'
    · have h1 : (p.1 == k') = true := by simp [hp]
      have h2 : (p.1 == k) = false := by simp [hp]; exact fun hc => h (hc ▸ hp.symm ▸ rfl)
      have h3 : (k' == k) = false := by simpa using Ne.symm h
      simp only [List.map_cons, h1, if_true, List.find?, h3, h2, Bool.false_eq_true]
      exact ih
    · have h1 : (p.1 == k') = false := by simp [hp]
      by_cases hpk : p.1 = k
      · simp [List.find?, h1, hpk, h]
      · have h2 : (p.1 == k) = false := by simp [hpk]
        simp only [List.map_cons, h1, if_false, List.find?, h2, Bool.false_eq_true]
        exact ih

theorem objGet_objSet_self (r : Row) (k : String) (v : JVal) :
    objGet (objSet r k v) k = v := by
  unfold objSet
  split
  next h =>
    unfold objGet
    rw [find?_map_set r k v h]
  next h =>
    have hnone : r.find? (fun p => p.1 == k) = none := by
      rw [List.find?_eq_none]
      intro p hp
      simp only [List.any_eq_true] at h
      push_neg at h
      simpa using h p hp
    unfold objGet
    rw [List.find?_append, hnone]
    simp [List.find?]

theorem objGet_objSet_ne (r : Row) (k k' : String) (v : JVal) (h : k ≠ k') :
    objGet (objSet r k' v) k = objGet r k := by
  unfold objSet
  split
  next _ =>
    unfold objGet
    rw [find?_map_set_ne r k k' v h]
  next _ =>
    have h1 : (k' == k) = false := by simpa using Ne.symm h
    unfold objGet
    rw [List.find?_append]
    simp [List.find?, h1]

theorem foldl_add_from {α : Type} (f : α → ℚ) (l : List α) (a : ℚ) :
    l.foldl (fun s k => s + f k) a = a + (l.map f).sum := by
  induction l generalizing a with
  | nil => simp
  | cons x xs ih => simp [ih, add_assoc]

theorem objGet_fold_objSet_not_mem (g : String → JVal) (ks : List String) (r : Row)
    (k : String) (hk : k ∉ ks) :
    objGet (ks.foldl (fun r k => objSet r k (g k)) r) k = objGet r k := by
  induction ks generalizing r with
  | nil => rfl
  | cons k0 ks ih =>
    simp only [List.foldl_cons]
    have hne : k ≠ k0 := fun h => hk (h ▸ List.mem_cons_self _ _)
    rw [ih _ (fun h => hk (List.mem_cons_of_mem _ h)), objGet_objSet_ne _ _ _ _ hne]

theorem objGet_fold_objSet_mem (g : String → JVal) (ks : List String) (r : Row)
    (k : String) (hk : k ∈ ks) :
    objGet (ks.foldl (fun r k => objSet r k (g k)) r) k = g k := by
  induction ks generalizing r with
  | nil => simp at hk
  | cons k0 ks ih =>
    simp only [List.foldl_cons]
    by_cases hmem : k ∈ ks
    · exact ih _ hmem
    · have hek : k = k0 := by
        rcases List.mem_cons.mp hk with h | h
        · exact h
        · exact absurd h hmem
      subst hek
      rw [objGet_fold_objSet_not_mem g ks _ k hmem, objGet_objSet_self]

/-! ### C3: stacked_100 percentage computation -/

/-- C3: for every input row and metric key set, the stacked_100 transform
computes `total` as the sum over all metric keys of the row's value
(non-numeric/missing as 0) and outputs `value/total*100` for each metric
key when `total > 0`, and `0` for every metric key when `total = 0` (no
division error: the guard never divides); the sample row
`{cat:'A', x:10, y:30}` with metric keys `[x,y]` yields `x = 25`,
`y = 75`, and an all-zero row yields all zeros. -/
theorem stacked100_percentage_correct (jsStrToNum : String → Option ℚ)
    (xKey : Option String) (yKeys : List String) (row : Row) :
    (∀ k, k ∈ yKeys →
      (0 < (yKeys.map (valueOr0 jsStrToNum row)).sum →
        objGet (stacked100Row jsStrToNum xKey yKeys row) k =
          .jnum (valueOr0 jsStrToNum row k /
            (yKeys.map (valueOr0 jsStrToNum row)).sum * 100))
      ∧ ((yKeys.map (valueOr0 jsStrToNum row)).sum = 0 →
        objGet (stacked100Row jsStrToNum xKey yKeys row) k = .jnum 0))
    ∧ (objGet (stacked100Row (fun _ => none) (some "cat") ["x", "y"]
        [("cat", .jstr "A"), ("x", .jnum 10), ("y", .jnum 30)]) "x" = .jnum 25
      ∧ objGet (stacked100Row (fun _ => none) (some "cat") ["x", "y"]
        [("cat", .jstr "A"), ("x", .jnum 10), ("y", .jnum 30)]) "y" = .jnum 75)
    ∧ (∀ k, k ∈ (["x", "y"] : List String) →
        objGet (stacked100Row (fun _ => none) (some "cat") ["x", "y"]
          [("cat", .jstr "A"), ("x", .jnum 0), ("y", .jnum 0)]) k = .jnum 0) := by
  refine ⟨?_, ⟨?_, ?_⟩, ?_⟩
  · intro k hk
    have hfold : objGet (stacked100Row jsStrToNum xKey yKeys row) k =
        .jnum (if (yKeys.foldl (fun sum k => sum + valueOr0 jsStrToNum row k) 0) > 0
          then valueOr0 jsStrToNum row k /
            (yKeys.foldl (fun sum k => sum + valueOr0 jsStrToNum row k) 0) * 100 else 0) := by
      simp only [stacked100Row]
      exact objGet_fold_objSet_mem _ yKeys _ k hk
    rw [foldl_add_from, zero_add] at hfold
    constructor
    · intro hpos
      rw [hfold, if_pos hpos]
    · intro hzero
      rw [hfold, hzero]
      norm_num
  · simp [stacked100Row, valueOr0, numOr0, jsToNum, objGet, objSet, List.find?, List.foldl,
      xKeyOr, strOr]
    norm_num
  · simp [stacked100Row, valueOr0, numOr0, jsToNum, objGet, objSet, List.find?, List.foldl,
      xKeyOr, strOr]
    norm_num
  · intro k hk
    fin_cases hk <;>
      simp [stacked100Row, valueOr0, numOr0, jsToNum, objGet, objSet, List.find?, List.foldl,
        xKeyOr, strOr]

/-- Witness for C3 at the sample input: metric key `x` of the row
`{cat:'A', x:10, y:30}` comes out as `value/total*100`. -/
theorem stacked100_percentage_correct_witness :
    objGet (stacked100Row (fun _ => none) (some "cat") ["x", "y"]
      [("cat", .jstr "A"), ("x", .jnum 10), ("y", .jnum 30)]) "x" =
      .jnum (valueOr0 (fun _ => none)
          [("cat", .jstr "A"), ("x", .jnum 10), ("y", .jnum 30)] "x" /
        ((["x", "y"] : List String).map (valueOr0 (fun _ => none)
          [("cat", .jstr "A"), ("x", .jnum 10), ("y", .jnum 30)])).sum * 100) :=
  ((stacked100_percentage_correct (fun _ => none) (some "cat") ["x", "y"]
      [("cat", .jstr "A"), ("x", .jnum 10), ("y", .jnum 30)]).1 "x"
    (by simp)).1
    (by simp [valueOr0, numOr0, jsToNum, objGet, List.find?]; norm_num)

/-! ### C4: stacked_100 frame (key preservation) -/

/-- C4 counterexample: the non-metric, non-category key `extra` of the
input row is NOT carried into the output row (it reads back as
`undefined`), refuting "every non-metric key of each input row appears
unchanged in the corresponding output row". -/
theorem stacked100_drops_extra_key :
    objGet ([("cat", .jstr "A"), ("extra", .jstr "Z"),
        ("x", .jnum 10), ("y", .jnum 30)] : Row) "extra" = .jstr "Z"
    ∧ objGet (stacked100Row (fun _ => none) (some "cat") ["x", "y"]
        [("cat", .jstr "A"), ("extra", .jstr "Z"),
         ("x", .jnum 10), ("y", .jnum 30)]) "extra" = .jundefined
    ∧ JVal.jundefined ≠ JVal.jstr "Z" := by
  refine ⟨by simp [objGet, List.find?], ?_, by simp⟩
  simp [stacked100Row, objGet, objSet, List.find?, List.foldl, xKeyOr, strOr]

/-- C4 (amended): the stacked_100 transform preserves row order (the i-th
output row is the transform of the i-th input row), but of the non-metric
keys only the category key (`xKey`, defaulting to `"name"`) is carried
over: its value is preserved whenever it is not itself a metric key, and
every other non-metric key is absent from the output row. -/
theorem stacked100_frame_amended (jsStrToNum : String → Option ℚ)
    (xKey : Option String) (yKeys : List String) (rows : List Row) :
    (percentData jsStrToNum xKey yKeys rows).length = rows.length
    ∧ (∀ i : Nat, (percentData jsStrToNum xKey yKeys rows)[i]? =
        (rows[i]?).map (stacked100Row jsStrToNum xKey yKeys))
    ∧ (∀ row : Row, xKeyOr xKey "name" ∉ yKeys →
        objGet (stacked100Row jsStrToNum xKey yKeys row) (xKeyOr xKey "name") =
          objGet row (xKeyOr xKey "name"))
    ∧ (∀ (row : Row) (k : String), k ≠ xKeyOr xKey "name" → k ∉ yKeys →
        objGet (stacked100Row jsStrToNum xKey yKeys row) k = .jundefined) := by
  refine ⟨by simp [percentData], fun i => by simp [percentData, List.getElem?_map], ?_, ?_⟩
  · intro row hx
    simp only [stacked100Row]
    rw [objGet_fold_objSet_not_mem _ _ _ _ hx]
    simp [objGet, List.find?]
  · intro row k hk1 hk2
    simp only [stacked100Row]
    rw [objGet_fold_objSet_not_mem _ _ _ _ hk2]
    have : (xKeyOr xKey "name" == k) = false := by simpa using Ne.symm hk1
    simp [objGet, List.find?, this]

/-- Witness for C4 (amended) at a concrete input: order/shape, category
preservation and the dropping of the key `extra`. -/
theorem stacked100_frame_amended_witness :
    (percentData (fun _ => none) (some "cat") ["x", "y"]
      [[("cat", .jstr "A"), ("extra", .jstr "Z"),
        ("x", .jnum 10), ("y", .jnum 30)]]).length = 1
    ∧ objGet (stacked100Row (fun _ => none) (some "cat") ["x", "y"]
        [("cat", .jstr "A"), ("extra", .jstr "Z"),
         ("x", .jnum 10), ("y", .jnum 30)]) "cat" =
        objGet ([("cat", .jstr "A"), ("extra", .jstr "Z"),
         ("x", .jnum 10), ("y", .jnum 30)] : Row) "cat"
    ∧ objGet (stacked100Row (fun _ => none) (some "cat") ["x", "y"]
        [("cat", .jstr "A"), ("extra", .jstr "Z"),
         ("x", .jnum 10), ("y", .jnum 30)]) "extra" = .jundefined := by
  have h := stacked100_frame_amended (fun _ => none) (some "cat") ["x", "y"]
    [[("cat", .jstr "A"), ("extra", .jstr "Z"), ("x", .jnum 10), ("y", .jnum 30)]]
  refine ⟨h.1, ?_, ?_⟩
  · have := h.2.2.1 [("cat", .jstr "A"), ("extra", .jstr "Z"),
      ("x", .jnum 10), ("y", .jnum 30)] (by simp [xKeyOr, strOr])
    simpa [xKeyOr, strOr] using this
  · have := h.2.2.2 [("cat", .jstr "A"), ("extra", .jstr "Z"),
      ("x", .jnum 10), ("y", .jnum 30)] "extra" (by simp [xKeyOr, strOr]) (by simp)
    simpa using this

/-! ### C2: waterfall running total -/

theorem waterfallFrom_length (jsStrToNum : String → Option ℚ) (xk yk : String)
    (rows : List Row) (acc : ℚ) :
    (waterfallFrom jsStrToNum xk yk acc rows).length = rows.length + 1 := by
  induction rows generalizing acc with
  | nil => simp [waterfallFrom]
  | cons r rs ih => simp [waterfallFrom, ih]

theorem waterfallFrom_getElem?_mid (jsStrToNum : String → Option ℚ) (xk yk : String)
    (rows : List Row) (acc : ℚ) (i : Nat) (r : Row) (hr : rows[i]? = some r) :
    (waterfallFrom jsStrToNum xk yk acc rows)[i]? = some
      { base := r, name := objGet r xk, value := valueOr0 jsStrToNum r yk,
        start := acc + ((rows.take i).map (fun r => valueOr0 jsStrToNum r yk)).sum,
        stop := acc + ((rows.take (i + 1)).map (fun r => valueOr0 jsStrToNum r yk)).sum,
        fill := if valueOr0 jsStrToNum r yk ≥ 0 then "#10b981" else "#ef4444" } := by
  induction rows generalizing acc i with
  | nil => simp at hr
  | cons r0 rs ih =>
    match i with
    | 0 =>
      simp only [List.getElem?_cons_zero, Option.some.injEq] at hr
      subst hr
      simp [waterfallFrom]
    | j + 1 =>
      simp only [List.getElem?_cons_succ] at hr
      simp only [waterfallFrom, List.getElem?_cons_succ]
      rw [ih (acc + valueOr0 jsStrToNum r0 yk) j hr]
      simp [List.take_succ_cons, add_assoc]

theorem waterfallFrom_getElem?_total (jsStrToNum : String → Option ℚ) (xk yk : String)
    (rows : List Row) (acc : ℚ) :
    (waterfallFrom jsStrToNum xk yk acc rows)[rows.length]? = some
      { base := [], name := .jstr "Total",
        value := acc + (rows.map (fun r => valueOr0 jsStrToNum r yk)).sum,
        start := 0,
        stop := acc + (rows.map (fun r => valueOr0 jsStrToNum r yk)).sum,
        fill := "#667eea" } := by
  induction rows generalizing acc with
  | nil => simp [waterfallFrom]
  | cons r0 rs ih =>
    simp only [waterfallFrom, List.length_cons, List.getElem?_cons_succ]
    rw [ih]
    simp [add_assoc]

/-- C2: the waterfall transform processes rows in original order with a
running total from 0: row `i` gets `start` = the sum of the values before
it and `end` = the sum including it, coloured by the sign of its value;
one synthetic `Total` row is appended with `start = 0` and
`end = value = ` the final running total, in a colour distinct from both
the positive and the negative colour; on values `[5, -3, 2]` the
`(start, end)` pairs are `(0,5), (5,2), (2,4)` (the `Total` row reading
`(0,4)`) and the trailing `Total` value is `4`. -/
theorem waterfall_running_total (jsStrToNum : String → Option ℚ)
    (xKey : Option String) (ykSpec : YKeySpec) (rows : List Row) :
    (waterfallData jsStrToNum xKey ykSpec rows).length = rows.length + 1
    ∧ (∀ (i : Nat) (r : Row), rows[i]? = some r →
        (waterfallData jsStrToNum xKey ykSpec rows)[i]? = some
          { base := r, name := objGet r (xKeyOr xKey "name"),
            value := valueOr0 jsStrToNum r (getYKey ykSpec),
            start := ((rows.take i).map (fun r => valueOr0 jsStrToNum r (getYKey ykSpec))).sum,
            stop := ((rows.take (i + 1)).map (fun r => valueOr0 jsStrToNum r (getYKey ykSpec))).sum,
            fill := if valueOr0 jsStrToNum r (getYKey ykSpec) ≥ 0
              then "#10b981" else "#ef4444" })
    ∧ (waterfallData jsStrToNum xKey ykSpec rows)[rows.length]? = some
        { base := [], name := .jstr "Total",
          value := (rows.map (fun r => valueOr0 jsStrToNum r (getYKey ykSpec))).sum,
          start := 0,
          stop := (rows.map (fun r => valueOr0 jsStrToNum r (getYKey ykSpec))).sum,
          fill := "#667eea" }
    ∧ ("#667eea" ≠ "#10b981" ∧ "#667eea" ≠ "#ef4444")
    ∧ ((waterfallData (fun _ => none) none .unset
        [[("name", .jstr "a"), ("value", .jnum 5)],
         [("name", .jstr "b"), ("value", .jnum (-3))],
         [("name", .jstr "c"), ("value", .jnum 2)]]).map (fun w => (w.start, w.stop))
        = [(0, 5), (5, 2), (2, 4), (0, 4)]
      ∧ (waterfallData (fun _ => none) none .unset
        [[("name", .jstr "a"), ("value", .jnum 5)],
         [("name", .jstr "b"), ("value", .jnum (-3))],
         [("name", .jstr "c"), ("value", .jnum 2)]]).map (fun w => w.value)
        = [5, -3, 2, 4]) := by
  refine ⟨?_, ?_, ?_, ⟨by simp, by simp⟩, ?_, ?_⟩
  · exact waterfallFrom_length _ _ _ rows 0
  · intro i r hr
    have := waterfallFrom_getElem?_mid jsStrToNum (xKeyOr xKey "name") (getYKey ykSpec)
      rows 0 i r hr
    simpa [waterfallData] using this
  · have := waterfallFrom_getElem?_total jsStrToNum (xKeyOr xKey "name") (getYKey ykSpec)
      rows 0
    simpa [waterfallData] using this
  · simp [waterfallData, waterfallFrom, valueOr0, numOr0, jsToNum, objGet, List.find?,
      xKeyOr, getYKey, strOr]
    norm_num
  · simp [waterfallData, waterfallFrom, valueOr0, numOr0, jsToNum, objGet, List.find?,
      xKeyOr, getYKey, strOr]
    norm_num

/-- Witness for C2 at the `[5, -3, 2]` example: the length and the derived
element of row 1. -/
theorem waterfall_running_total_witness :
    (waterfallData (fun _ => none) none .unset
      [[("name", .jstr "a"), ("value", .jnum 5)],
       [("name", .jstr "b"), ("value", .jnum (-3))],
       [("name", .jstr "c"), ("value", .jnum 2)]]).length = 3 + 1
    ∧ (waterfallData (fun _ => none) none .unset
      [[("name", .jstr "a"), ("value", .jnum 5)],
       [("name", .jstr "b"), ("value", .jnum (-3))],
       [("name", .jstr "c"), ("value", .jnum 2)]])[1]? = some
        { base := [("name", .jstr "b"), ("value", .jnum (-3))],
          name := objGet [("name", .jstr "b"), ("value", .jnum (-3))] (xKeyOr none "name"),
          value := valueOr0 (fun _ => none)
            [("name", .jstr "b"), ("value", .jnum (-3))] (getYKey .unset),
          start := (([[("name", .jstr "a"), ("value", .jnum 5)],
            [("name", .jstr "b"), ("value", .jnum (-3))],
            [("name", .jstr "c"), ("value", .jnum 2)]].take 1).map
              (fun r => valueOr0 (fun _ => none) r (getYKey .unset))).sum,
          stop := (([[("name", .jstr "a"), ("value", .jnum 5)],
            [("name", .jstr "b"), ("value", .jnum (-3))],
            [("name", .jstr "c"), ("value", .jnum 2)]].take (1 + 1)).map
              (fun r => valueOr0 (fun _ => none) r (getYKey .unset))).sum,
          fill := if valueOr0 (fun _ => none)
              [("name", .jstr "b"), ("value", .jnum (-3))] (getYKey .unset) ≥ 0
            then "#10b981" else "#ef4444" } :=
  ⟨(waterfall_running_total (fun _ => none) none .unset
      [[("name", .jstr "a"), ("value", .jnum 5)],
       [("name", .jstr "b"), ("value", .jnum (-3))],
       [("name", .jstr "c"), ("value", .jnum 2)]]).1,
   (waterfall_running_total (fun _ => none) none .unset
      [[("name", .jstr "a"), ("value", .jnum 5)],
       [("name", .jstr "b"), ("value", .jnum (-3))],
       [("name", .jstr "c"), ("value", .jnum 2)]]).2.1 1
     [("name", .jstr "b"), ("value", .jnum (-3))] rfl⟩

/-! ### C5: funnel sort -/

theorem jsInsert_perm {α : Type} (le : α → α → Bool) (x : α) (l : List α) :
    (jsInsert le x l).Perm (x :: l) := by
  induction l with
  | nil => simp [jsInsert]
  | cons y ys ih =>
    by_cases h : le x y
    · simp [jsInsert, h]
    · simp only [jsInsert, h, if_false, Bool.false_eq_true]
      exact (ih.cons y).trans (List.Perm.swap x y ys)

theorem jsStableSort_perm {α : Type} (le : α → α → Bool) (l : List α) :
    (jsStableSort le l).Perm l := by
  induction l with
  | nil => simp [jsStableSort]
  | cons x xs ih =>
    exact (jsInsert_perm le x (jsStableSort le xs)).trans (ih.cons x)

theorem jsInsert_pairwise {α : Type} (le : α → α → Bool)
    (htot : ∀ a b, le a b = true ∨ le b a = true)
    (htrans : ∀ a b c, le a b = true → le b c = true → le a c = true)
    (x : α) (l : List α) (hl : l.Pairwise (fun a b => le a b = true)) :
    (jsInsert le x l).Pairwise (fun a b => le a b = true) := by
  induction l with
  | nil => simp [jsInsert]
  | cons y ys ih =>
    rcases List.pairwise_cons.mp hl with ⟨hy, hys⟩
    by_cases h : le x y
    · simp only [jsInsert, h, if_true]
      refine List.Pairwise.cons ?_ hl
      intro b hb
      rcases List.mem_cons.mp hb with rfl | hb
      · exact h
      · exact htrans x y b h (hy b hb)
    · simp only [jsInsert, h, if_false, Bool.false_eq_true]
      refine List.Pairwise.cons ?_ (ih hys)
      intro b hb
      rcases List.mem_cons.mp ((jsInsert_perm le x ys).mem_iff.mp hb) with rfl | hb2
      · rcases htot y b with hyb | hby
        · exact hyb
        · exact absurd hby (by simpa using h)
      · exact hy b hb2

theorem jsStableSort_pairwise {α : Type} (le : α → α → Bool)
    (htot : ∀ a b, le a b = true ∨ le b a = true)
    (htrans : ∀ a b c, le a b = true → le b c = true → le a c = true)
    (l : List α) :
    (jsStableSort le l).Pairwise (fun a b => le a b = true) := by
  induction l with
  | nil => simp [jsStableSort]
  | cons x xs ih => exact jsInsert_pairwise le htot htrans x _ ih

theorem jsStableSort_of_le_all {α : Type} (le : α → α → Bool) (l : List α)
    (h : ∀ x ∈ l, ∀ y ∈ l, le x y = true) :
    jsStableSort le l = l := by
  induction l with
  | nil => rfl
  | cons x xs ih =>
    have hxs : jsStableSort le xs = xs :=
      ih (fun a ha b hb =>
        h a (List.mem_cons_of_mem _ ha) b (List.mem_cons_of_mem _ hb))
    simp only [jsStableSort, hxs]
    cases xs with
    | nil => simp [jsInsert]
    | cons y ys =>
      simp [jsInsert,
        h x (List.mem_cons_self _ _) y (List.mem_cons_of_mem _ (List.mem_cons_self _ _))]

/-- C5: the funnel transform maps row `i` to `{name: String(row[xKey ??
'name']), value: Number(row[primaryKey]) || 0}` with the palette colour of
the pre-sort index `i mod 8`, then stable-sorts the sequence by value
descending: the output is a permutation of the mapped sequence sorted
descending by value; values `[3, 9, 1]` come out `[9, 3, 1]`; and when all
values are equal the sort is the identity, so every element keeps the
colour assigned before sorting. -/
theorem funnel_desc_sort (jsStrToNum : String → Option ℚ) (jsNumToStr : ℚ → String)
    (xKey : Option String) (ykSpec : YKeySpec) (rows : List Row) :
    (∀ i : Nat, (funnelMapped jsStrToNum jsNumToStr xKey ykSpec rows)[i]? =
      (rows[i]?).map (fun r =>
        { name := jsStringOf jsNumToStr (objGet r (xKeyOr xKey "name")),
          value := valueOr0 jsStrToNum r (getYKey ykSpec),
          fill := paletteColor i }))
    ∧ (funnelData jsStrToNum jsNumToStr xKey ykSpec rows).Perm
        (funnelMapped jsStrToNum jsNumToStr xKey ykSpec rows)
    ∧ (funnelData jsStrToNum jsNumToStr xKey ykSpec rows).Pairwise
        (fun a b => b.value ≤ a.value)
    ∧ ((∀ x ∈ funnelMapped jsStrToNum jsNumToStr xKey ykSpec rows,
        ∀ y ∈ funnelMapped jsStrToNum jsNumToStr xKey ykSpec rows, x.value = y.value) →
        funnelData jsStrToNum jsNumToStr xKey ykSpec rows =
          funnelMapped jsStrToNum jsNumToStr xKey ykSpec rows)
    ∧ (funnelData (fun _ => none) (fun _ => "") none (.single "v")
        [[("name", .jstr "a"), ("v", .jnum 3)],
         [("name", .jstr "b"), ("v", .jnum 9)],
         [("name", .jstr "c"), ("v", .jnum 1)]]).map (fun x => x.value) = [9, 3, 1] := by
  refine ⟨?_, jsStableSort_perm _ _, ?_, ?_, ?_⟩
  · intro i
    simp only [funnelMapped, List.getElem?_map, List.getElem?_enum, Option.map_map]
    rfl
  · have h := jsStableSort_pairwise funnelLe
      (fun a b => by
        simp only [funnelLe, decide_eq_true_eq]
        exact le_total b.value a.value)
      (fun a b c hab hbc => by
        simp only [funnelLe, decide_eq_true_eq] at *
        exact le_trans hbc hab)
      (funnelMapped jsStrToNum jsNumToStr xKey ykSpec rows)
    exact h.imp (fun hab => by simpa [funnelLe] using hab)
  · intro h
    exact jsStableSort_of_le_all _ _ (fun x hx y hy => by
      simp only [funnelLe, decide_eq_true_eq]
      exact le_of_eq (h y hy x hx))
  · simp [funnelData, funnelMapped, jsStableSort, jsInsert, funnelLe, valueOr0, numOr0,
      jsToNum, objGet, List.find?, xKeyOr, getYKey, strOr, jsStringOf, paletteColor]
    norm_num

/-- Witness for C5: on equal values `[7, 7]` the output equals the mapped
sequence, keeping the pre-sort colour of every element. -/
theorem funnel_desc_sort_witness :
    funnelData (fun _ => none) (fun _ => "") none (.single "v")
      [[("name", .jstr "a"), ("v", .jnum 7)],
       [("name", .jstr "b"), ("v", .jnum 7)]] =
      funnelMapped (fun _ => none) (fun _ => "") none (.single "v")
      [[("name", .jstr "a"), ("v", .jnum 7)],
       [("name", .jstr "b"), ("v", .jnum 7)]] :=
  (funnel_desc_sort (fun _ => none) (fun _ => "") none (.single "v")
      [[("name", .jstr "a"), ("v", .jnum 7)],
       [("name", .jstr "b"), ("v", .jnum 7)]]).2.2.2.1
    (by
      intro x hx y hy
      simp [funnelMapped, valueOr0, numOr0, jsToNum, objGet, List.find?, xKeyOr,
        getYKey, strOr, List.enum, jsStringOf, paletteColor] at hx hy
      rcases hx with hx | hx <;> rcases hy with hy | hy <;> subst hx <;> subst hy <;> rfl)

/-! ### C6: recommendation ranker -/

theorem jsInsert_eq_cons_of_all {α : Type} (le : α → α → Bool) (x : α) (l : List α)
    (h : ∀ b ∈ l, le x b = true) : jsInsert le x l = x :: l := by
  cases l with
  | nil => rfl
  | cons y ys => simp [jsInsert, h y (List.mem_cons_self _ _)]

theorem jsInsert_append_of_not {α : Type} (le : α → α → Bool) (x : α) (as bs : List α)
    (h : ∀ a ∈ as, le x a = false) :
    jsInsert le x (as ++ bs) = as ++ jsInsert le x bs := by
  induction as with
  | nil => rfl
  | cons a as ih =>
    simp only [List.cons_append, jsInsert, h a (List.mem_cons_self _ _), if_false,
      Bool.false_eq_true, List.append_eq]
    rw [ih (fun a ha => h a (List.mem_cons_of_mem _ ha))]

theorem jsStableSort_two_key {α : Type} (key : α → Nat) (l : List α)
    (hkey : ∀ x, key x ≤ 1) :
    jsStableSort (fun a b => decide (key a ≤ key b)) l =
      l.filter (fun x => key x == 0) ++ l.filter (fun x => key x == 1) := by
  induction l with
  | nil => rfl
  | cons x xs ih =>
    simp only [jsStableSort, ih]
    by_cases hx : key x = 0
    · rw [jsInsert_eq_cons_of_all _ _ _ (fun b _ => by simp [hx])]
      simp [List.filter_cons, hx]
    · have hx1 : key x = 1 := Nat.le_antisymm (hkey x) (Nat.one_le_iff_ne_zero.mpr hx)
      rw [jsInsert_append_of_not _ _ _ _
        (fun a ha => by
          have := List.of_mem_filter ha
          simp only [beq_iff_eq] at this
          simp [hx1, this])]
      rw [jsInsert_eq_cons_of_all _ _ _
        (fun b hb => by
          have := List.of_mem_filter hb
          simp only [beq_iff_eq] at this
          simp [hx1, this])]
      simp [List.filter_cons, hx1]

theorem rankList_eq_partition (rec : List ChartType) (l : List ChartOption) :
    rankList rec l = l.filter (fun o => recRank rec o == 0)
      ++ l.filter (fun o => recRank rec o == 1) := by
  unfold rankList recLe
  exact jsStableSort_two_key (recRank rec) l
    (fun o => by unfold recRank; split <;> simp)

theorem rankList_idem_aux (rec : List ChartType) (l : List ChartOption) :
    rankList rec (rankList rec l) = rankList rec l := by
  have h10 : ∀ a : ChartOption, ((recRank rec a == 1) && (recRank rec a == 0)) = false := by
    intro a
    by_cases h : recRank rec a = 0 <;> simp [h]
  have h01 : ∀ a : ChartOption, ((recRank rec a == 0) && (recRank rec a == 1)) = false := by
    intro a
    by_cases h : recRank rec a = 0 <;> simp [h]
  rw [rankList_eq_partition rec l, rankList_eq_partition rec _,
    List.filter_append, List.filter_append, List.filter_filter, List.filter_filter,
    List.filter_filter, List.filter_filter]
  simp only [Bool.and_self, h10, h01, List.filter_false, List.append_nil, List.nil_append]

/-- C6: the ranked selector list is the stable partition of the registry:
recommended chart types first, then the rest, each side in registry order;
moreover every recommended entry precedes every non-recommended entry, and
ranking is idempotent on arbitrary sequences. -/
theorem ranker_stable_partition (rec : List ChartType) :
    sortedOptions rec =
      CHART_OPTIONS.filter (fun o => isRecommended rec o.value)
        ++ CHART_OPTIONS.filter (fun o => ! isRecommended rec o.value)
    ∧ (∀ o ∈ CHART_OPTIONS.filter (fun o => isRecommended rec o.value),
        isRecommended rec o.value = true)
    ∧ (∀ o ∈ CHART_OPTIONS.filter (fun o => ! isRecommended rec o.value),
        isRecommended rec o.value = false)
    ∧ (∀ (i j : Nat) (a b : ChartOption), i ≤ j →
        (sortedOptions rec)[i]? = some a → (sortedOptions rec)[j]? = some b →
        isRecommended rec b.value = true → isRecommended rec a.value = true)
    ∧ (∀ l : List ChartOption, rankList rec (rankList rec l) = rankList rec l) := by
  have hpart : sortedOptions rec =
      CHART_OPTIONS.filter (fun o => isRecommended rec o.value)
        ++ CHART_OPTIONS.filter (fun o => ! isRecommended rec o.value) := by
    rw [sortedOptions, rankList_eq_partition]
    congr 1
    · apply List.filter_congr
      intro o _
      unfold recRank
      split <;> simp_all
    · apply List.filter_congr
      intro o _
      unfold recRank
      split <;> simp_all
  refine ⟨hpart, fun o ho => by simpa using List.of_mem_filter ho,
    fun o ho => by simpa using List.of_mem_filter ho, ?_, rankList_idem_aux rec⟩
  intro i j a b hij ha hb hbrec
  set as := CHART_OPTIONS.filter (fun o => isRecommended rec o.value) with has
  set bs := CHART_OPTIONS.filter (fun o => ! isRecommended rec o.value) with hbs
  rw [hpart] at ha hb
  by_cases hj : j < as.length
  · have hi : i < as.length := lt_of_le_of_lt hij hj
    rw [List.getElem?_append, if_pos hi] at ha
    have hmem : a ∈ as := List.getElem?_mem ha
    rw [has] at hmem
    simpa using List.of_mem_filter hmem
  · rw [List.getElem?_append_right (le_of_not_lt hj)] at hb
    have hmem : b ∈ bs := List.getElem?_mem hb
    rw [hbs] at hmem
    have := List.of_mem_filter hmem
    simp [hbrec] at this

/-- Witness for C6: with `[funnel]` recommended, the funnel entry is first
and ranking the ranked registry again is a no-op. -/
theorem ranker_stable_partition_witness :
    sortedOptions [ChartType.funnel] =
      CHART_OPTIONS.filter (fun o => isRecommended [ChartType.funnel] o.value)
        ++ CHART_OPTIONS.filter (fun o => ! isRecommended [ChartType.funnel] o.value)
    ∧ rankList [ChartType.funnel] (rankList [ChartType.funnel] CHART_OPTIONS) =
        rankList [ChartType.funnel] CHART_OPTIONS :=
  ⟨(ranker_stable_partition [ChartType.funnel]).1,
   (ranker_stable_partition [ChartType.funnel]).2.2.2.2 CHART_OPTIONS⟩

/-! ### C7: composed-chart axis tick formatters -/

/-- C7 counterexample: at the claim's own sample value `-3` the
secondary-axis formatter yields `"-3.0"`, not `"-3.0%"`: its percentage
branch requires `0 ≤ v ≤ 100` and its final branch keeps one decimal with
no percent sign. -/
theorem composed_secondary_negative_not_percent :
    secondaryTick (-3) = "-3.0" ∧ "-3.0" ≠ "-3.0%" := by
  refine ⟨?_, by decide⟩
  simp only [secondaryTick, fmtFixed]
  norm_num
  rfl

/-- C7 (amended): the primary-axis formatter renders `v ≥ 1,000,000` as
`v/1,000,000` with one decimal plus `"M"`, `v ≥ 1,000` as `v/1,000` with
one decimal plus `"K"`, and otherwise the literal value with zero decimals
(the comparisons are on the signed value, not its magnitude); the
secondary-axis formatter renders `v` within `[0,100]` as a percentage with
one decimal plus `"%"`, `v ≥ 1,000` as `v/1,000` with one decimal plus
`"K"`, and otherwise one decimal with no suffix (it has no `"M"` branch);
for yKey `['revenue','growth_rate']`, revenue `120000`/`95000` formats as
`"120.0K"`/`"95.0K"` and growth_rate `5`/`-3` as `"5.0%"`/`"-3.0"`. -/
theorem composed_axis_formats (v : ℚ) :
    (1000000 ≤ v → primaryTick v = fmtFixed 1 (v / 1000000) ++ "M")
    ∧ (1000 ≤ v → v < 1000000 → primaryTick v = fmtFixed 1 (v / 1000) ++ "K")
    ∧ (v < 1000 → primaryTick v = fmtFixed 0 v)
    ∧ (0 ≤ v → v ≤ 100 → secondaryTick v = fmtFixed 1 v ++ "%")
    ∧ (100 < v → v < 1000 → secondaryTick v = fmtFixed 1 v)
    ∧ (v < 0 → secondaryTick v = fmtFixed 1 v)
    ∧ (1000 ≤ v → secondaryTick v = fmtFixed 1 (v / 1000) ++ "K")
    ∧ (composedAxisFormat 0 120000 = "120.0K"
      ∧ composedAxisFormat 0 95000 = "95.0K"
      ∧ composedAxisFormat 1 5 = "5.0%"
      ∧ composedAxisFormat 1 (-3) = "-3.0") := by
  refine ⟨?_, ?_, ?_, ?_, ?_, ?_, ?_, ?_, ?_, ?_, ?_⟩
  · intro h
    rw [primaryTick, if_pos h]
  · intro h1 h2
    rw [primaryTick, if_neg (by exact not_le.mpr h2), if_pos h1]
  · intro h
    rw [primaryTick, if_neg (by exact not_le.mpr (lt_of_lt_of_le h (by norm_num))),
      if_neg (by exact not_le.mpr h)]
  · intro h0 h100
    rw [secondaryTick, if_pos ⟨h100, h0⟩]
  · intro h100 h1000
    rw [secondaryTick, if_neg (by
        intro hc
        exact absurd hc.1 (not_le.mpr h100)),
      if_neg (by exact not_le.mpr h1000)]
  · intro h
    rw [secondaryTick, if_neg (by
        intro hc
        exact absurd hc.2 (not_le.mpr h)),
      if_neg (by exact not_le.mpr (lt_trans h (by norm_num)))]
  · intro h
    rw [secondaryTick, if_neg (by
        intro hc
        exact absurd (le_trans h hc.1) (by norm_num)),
      if_pos h]
  · simp only [composedAxisFormat, if_pos rfl, primaryTick, fmtFixed]
    norm_num
    rfl
  · simp only [composedAxisFormat, if_pos rfl, primaryTick, fmtFixed]
    norm_num
    rfl
  · simp only [composedAxisFormat, primaryTick, secondaryTick, fmtFixed]
    norm_num
    rfl
  · simp only [composedAxisFormat, primaryTick, secondaryTick, fmtFixed]
    norm_num
    rfl

/-- Witness for C7 (amended): the branch facts applied at `2000000`,
`120000`, `50` and `-3`. -/
theorem composed_axis_formats_witness :
    primaryTick 2000000 = fmtFixed 1 ((2000000 : ℚ) / 1000000) ++ "M"
    ∧ primaryTick 120000 = fmtFixed 1 ((120000 : ℚ) / 1000) ++ "K"
    ∧ secondaryTick 50 = fmtFixed 1 (50 : ℚ) ++ "%"
    ∧ secondaryTick (-3) = fmtFixed 1 ((-3) : ℚ) :=
  ⟨(composed_axis_formats 2000000).1 (by norm_num),
   (composed_axis_formats 120000).2.1 (by norm_num) (by norm_num),
   (composed_axis_formats 50).2.2.2.1 (by norm_num) (by norm_num),
   (composed_axis_formats (-3)).2.2.2.2.2.1 (by norm_num)⟩

/-! ### C8: empty-data dispatch -/

/-- C8 counterexample: with a present-but-empty data array and the `bar`
family, the dispatcher emits a bar-chart instruction over the empty
dataset, not the "no data" placeholder: only the tabular branch checks for
emptiness. -/
theorem empty_data_bar_not_noData :
    chartRenderer (fun _ => none)
      { ctype := .chart .bar, title := "t", message := none, xKey := none,
        yKey := .unset, data := some (.darr []), recommended := none } =
      .chart .bar []
    ∧ RenderResult.chart .bar [] ≠ .noData := by
  exact ⟨rfl, by simp⟩

/-- C8 (amended): when the normalized dataset is empty, only the tabular
renderer (family `table`, which is also the switch default) returns the
"no data" placeholder; every other chart family emits its chart
instruction over the empty dataset. -/
theorem empty_data_dispatch (parse : String → Option ParsedJson) (cfg : VizConfig)
    (t : ChartType) (ht : cfg.ctype = .chart t)
    (htruthy : dataTruthy cfg.data = true)
    (hnorm : normalizePayload parse cfg.data = .rows []) :
    chartRenderer parse cfg = if t = .table then .noData else .chart t [] := by
  have hne : ¬ cfg.ctype = ConfigType.error := by
    rw [ht]
    intro hc
    cases hc
  unfold chartRenderer
  rw [htruthy]
  simp only [not_true, if_false, Bool.true_eq_false]
  rw [if_neg hne, hnorm, ht]
  cases t <;> simp [dispatchChart, renderTableQ]

/-- Witness for C8 (amended): the `table` family shows the placeholder on
empty data while the `line` family emits an empty line chart. -/
theorem empty_data_dispatch_witness :
    chartRenderer (fun _ => none)
      { ctype := .chart .table, title := "t", message := none, xKey := none,
        yKey := .unset, data := some (.darr []), recommended := none } =
      (if ChartType.table = ChartType.table then RenderResult.noData
       else .chart .table [])
    ∧ chartRenderer (fun _ => none)
      { ctype := .chart .line, title := "t", message := none, xKey := none,
        yKey := .unset, data := some (.darr []), recommended := none } =
      (if ChartType.line = ChartType.table then RenderResult.noData
       else .chart .line []) :=
  ⟨empty_data_dispatch (fun _ => none) _ ChartType.table rfl rfl rfl,
   empty_data_dispatch (fun _ => none) _ ChartType.line rfl rfl rfl⟩

/-! ### C9: malformed string payload degrades to opaque text -/

/-- C9: a string data payload that fails to parse as structured data never
raises: normalization is total and returns the sentinel carrying the raw
string to render as opaque text, and the (pure) renderer emits the
text-fallback instruction for any non-error config carrying such a
payload (a non-empty string; the empty string is falsy in JS and is
intercepted by the missing-data guard before parsing). -/
theorem string_parse_fallback (parse : String → Option ParsedJson) (s : String)
    (hfail : parse s = none) :
    normalizeChartData parse (.dstr s) = .rawText s
    ∧ (∀ cfg : VizConfig, cfg.ctype ≠ .error → cfg.data = some (.dstr s) → s ≠ "" →
        chartRenderer parse cfg = .rawText cfg.title s) := by
  constructor
  · simp [normalizeChartData, hfail]
  · intro cfg herr hdata hs
    unfold chartRenderer
    have htruthy : dataTruthy cfg.data = true := by
      rw [hdata]
      simpa [dataTruthy] using hs
    rw [htruthy]
    simp only [not_true, if_false, Bool.true_eq_false]
    rw [if_neg herr, hdata]
    simp [normalizePayload, normalizeChartData, hfail]

/-- Witness for C9: a concrete unparseable payload inside a `bar` config
falls back to the raw text instruction. -/
theorem string_parse_fallback_witness :
    chartRenderer (fun _ => none)
      { ctype := .chart .bar, title := "Sales", message := none, xKey := none,
        yKey := .unset, data := some (.dstr "not json"), recommended := none } =
      .rawText "Sales" "not json" :=
  (string_parse_fallback (fun _ => none) "not json" rfl).2
    { ctype := .chart .bar, title := "Sales", message := none, xKey := none,
      yKey := .unset, data := some (.dstr "not json"), recommended := none }
    (by intro hc; cases hc) rfl (by decide)

/-! ### C10: tabular fallback columns -/

/-- C10: for every non-empty dataset the tabular fallback derives its
column set solely from the first record's keys — a key absent from the
first record is never among the rendered columns, even if later records
carry it — every row is rendered against exactly those columns, and a
value that is missing or null renders as the placeholder `"-"`; the
ChartRenderer-internal table likewise takes its columns from the first
row. -/
theorem dataTable_columns_from_first_row (fmtNum : ℚ → String)
    (r0 : Row) (rest : List Row) :
    (dataTable fmtNum (r0 :: rest)).map (fun tv => tv.columns) = some (rowKeys r0)
    ∧ (dataTable fmtNum (r0 :: rest)).map (fun tv => tv.body) =
        some ((r0 :: rest).map (fun r =>
          (rowKeys r0).map (fun c => formatValue fmtNum (objGet r c))))
    ∧ (∀ k : String, k ∉ rowKeys r0 →
        ∀ tv ∈ dataTable fmtNum (r0 :: rest), k ∉ tv.columns)
    ∧ (∀ (r : Row) (c : String), objGet r c = .jundefined ∨ objGet r c = .jnull →
        formatValue fmtNum (objGet r c) = "-")
    ∧ renderTableQ (r0 :: rest) = .tableView (rowKeys r0) (r0 :: rest) := by
  refine ⟨rfl, rfl, ?_, ?_, rfl⟩
  · intro k hk tv htv
    have h2 : dataTable fmtNum (r0 :: rest) = some tv := htv
    simp only [dataTable, Option.some.injEq] at h2
    rw [← h2]
    exact hk
  · intro r c hc
    rcases hc with h | h <;> rw [h] <;> rfl

/-- Witness for C10: a key carried only by the second record is not a
rendered column, and the second record's missing first-record key renders
as `"-"`. -/
theorem dataTable_columns_from_first_row_witness :
    (∀ tv ∈ dataTable (fun _ => "1")
        [[("a", .jnum 1), ("b", .jnull)], [("a", .jstr "x"), ("late", .jstr "z")]],
      "late" ∉ tv.columns)
    ∧ formatValue (fun _ => "1")
        (objGet [("a", .jstr "x"), ("late", .jstr "z")] "b") = "-" :=
  ⟨(dataTable_columns_from_first_row (fun _ => "1")
      [("a", .jnum 1), ("b", .jnull)] [[("a", .jstr "x"), ("late", .jstr "z")]]).2.2.1
    "late" (by decide),
   (dataTable_columns_from_first_row (fun _ => "1")
      [("a", .jnum 1), ("b", .jnull)] [[("a", .jstr "x"), ("late", .jstr "z")]]).2.2.2.1
    [("a", .jstr "x"), ("late", .jstr "z")] "b" (Or.inl rfl)⟩

/-! ### C1: selection state machine on a new result -/

/-- C1 counterexample: a result whose config has type `bar` but
recommended_charts `[pie]` leaves the post-result selection at `bar` (the
config's own type), not at `recommendedCharts[0] = pie`. -/
theorem new_result_ignores_recommended_head :
    (applyNewResult ⟨none, none⟩ (some
      { ctype := .chart .bar, title := "t", message := none, xKey := none,
        yKey := .unset, data := some (.darr []),
        recommended := some [.pie] })).selectedChartType = some (.chart .bar)
    ∧ (recommendedCharts (some
      { ctype := .chart .bar, title := "t", message := none, xKey := none,
        yKey := .unset, data := some (.darr []),
        recommended := some [.pie] })).head? = some (.chart .pie)
    ∧ (ConfigType.chart .bar) ≠ (ConfigType.chart .pie) := by
  exact ⟨rfl, rfl, by simp⟩

/-- C1 (amended): for every sequence of user picks followed by a new query
result, the selection state is rebuilt from the new config alone (the
prior user override is never retained): `current` becomes the config's own
`type` (falling back to `bar` when the config is missing), which is what
the effective config then displays; this equals `recommendedCharts[0]`
exactly in the case that the config carries no explicit
`recommended_charts` list. -/
theorem new_result_resets_selection (picks : List ChartType) (s0 : DashState)
    (cfg : Option VizConfig) :
    applyNewResult (picks.foldl applyPick s0) cfg = applyNewResult s0 cfg
    ∧ (applyNewResult (picks.foldl applyPick s0) cfg).selectedChartType =
        some (aiDefaultType cfg)
    ∧ (getEffectiveConfig (applyNewResult (picks.foldl applyPick s0) cfg)).map
        (fun c => c.ctype) = cfg.map (fun _ => aiDefaultType cfg)
    ∧ (∀ c : VizConfig, cfg = some c → c.recommended = none →
        (recommendedCharts cfg).head? =
          (applyNewResult (picks.foldl applyPick s0) cfg).selectedChartType) := by
  refine ⟨rfl, rfl, ?_, ?_⟩
  · cases cfg with
    | none => rfl
    | some c => rfl
  · intro c hc hrec
    subst hc
    simp [recommendedCharts, hrec, aiDefaultType, applyNewResult]

/-- Witness for C1 (amended): after the user picks `funnel`, a new result
with type `line` and no recommended_charts list resets the selection to
`line`, which is also `recommendedCharts[0]`. -/
theorem new_result_resets_selection_witness :
    (applyNewResult ([ChartType.funnel].foldl applyPick ⟨none, none⟩) (some
      { ctype := .chart .line, title := "t", message := none, xKey := none,
        yKey := .unset, data := some (.darr []),
        recommended := none })).selectedChartType =
      some (aiDefaultType (some
      { ctype := .chart .line, title := "t", message := none, xKey := none,
        yKey := .unset, data := some (.darr []), recommended := none }))
    ∧ (recommendedCharts (some
      { ctype := .chart .line, title := "t", message := none, xKey := none,
        yKey := .unset, data := some (.darr []), recommended := none })).head? =
      (applyNewResult ([ChartType.funnel].foldl applyPick ⟨none, none⟩) (some
      { ctype := .chart .line, title := "t", message := none, xKey := none,
        yKey := .unset, data := some (.darr []),
        recommended := none })).selectedChartType :=
  ⟨(new_result_resets_selection [ChartType.funnel] ⟨none, none⟩ (some
      { ctype := .chart .line, title := "t", message := none, xKey := none,
        yKey := .unset, data := some (.darr []), recommended := none })).2.1,
   (new_result_resets_selection [ChartType.funnel] ⟨none, none⟩ (some
      { ctype := .chart .line, title := "t", message := none, xKey := none,
        yKey := .unset, data := some (.darr []), recommended := none })).2.2.2
    _ rfl rfl⟩
